import Mathlib

/-!
Verification of the proxier package: a shallow embedding of its
fingerprint-spoofing round-trip engine (utls.go, proxy.go, options.go,
client.go) together with proofs about the embedded definitions.

Network effects (TCP dials, TLS handshakes, reads) are modelled as oracle
parameters: each embedded function receives the outcome the network would
produce and computes exactly what the Go code computes from it.
-/

/-- Models Go's `fmt` verb `%q` for strings that contain no characters
needing escapes (protocol tokens, status lines, URL schemes): the string
surrounded by double quotes. -/
def goQuote (s : String) : String := "\"" ++ s ++ "\""

/-- `true` iff the character `c` occurs in the list; models Go's
`bytealg.IndexByteString(s, c) >= 0` checks inside `net.SplitHostPort`. -/
def hasChar (c : Char) : List Char → Bool
  | [] => false
  | x :: xs => if x = c then true else hasChar c xs

/-- Split a character list at its last colon: `some (before, after)` when a
colon occurs, `none` otherwise.  Models the `last(hostport, ':')` index
computation of Go's `net.SplitHostPort`. -/
def splitAtLastColon : List Char → Option (List Char × List Char)
  | [] => none
  | c :: rest =>
    match splitAtLastColon rest with
    | some (h, p) => some (c :: h, p)
    | none => if c = ':' then some ([], rest) else none

/-- Split a character list at its first right square bracket, dropping the
bracket itself; `none` when absent.  Models the `byteIndex(hostport, ']')`
step of Go's `net.SplitHostPort`. -/
def breakAtRBracket : List Char → Option (List Char × List Char)
  | [] => none
  | x :: xs =>
    if x = ']' then some ([], xs)
    else
      match breakAtRBracket xs with
      | some (a, b) => some (x :: a, b)
      | none => none

/-- Whether a character list begins with a left square bracket (Go:
`hostport[0] == '['`). -/
def startsWithLBracket (l : List Char) : Bool :=
  match l with
  | [] => false
  | c :: _ => if c = '[' then true else false

/-- Models Go's `net.AddrError` rendering `"address " + Addr + ": " + Err`. -/
def addrErr (hp : List Char) (msg : String) : String :=
  "address " ++ String.mk hp ++ ": " ++ msg

/-- Embedding of Go's `net.SplitHostPort` on character lists: split
`host:port` at the last colon, handling a bracketed `[host]:port` form,
rejecting stray colons and brackets. -/
def splitHostPortL (hp : List Char) : Except String (List Char × List Char) :=
  match splitAtLastColon hp with
  | none => Except.error (addrErr hp "missing port in address")
  | some (beforeLast, afterLast) =>
    if startsWithLBracket hp then
      match breakAtRBracket hp.tail with
      | none => Except.error (addrErr hp "missing ']' in address")
      | some (bhost, tail) =>
        match tail with
        | ':' :: p2 =>
          if hasChar ':' p2 then Except.error (addrErr hp "too many colons in address")
          else if hasChar '[' hp.tail then Except.error (addrErr hp "unexpected '[' in address")
          else if hasChar ']' tail then Except.error (addrErr hp "unexpected ']' in address")
          else Except.ok (bhost, p2)
        | _ => Except.error (addrErr hp "missing port in address")
    else
      if hasChar ':' beforeLast then Except.error (addrErr hp "too many colons in address")
      else if hasChar '[' hp then Except.error (addrErr hp "unexpected '[' in address")
      else if hasChar ']' hp then Except.error (addrErr hp "unexpected ']' in address")
      else Except.ok (beforeLast, afterLast)

/-- Go's `net.SplitHostPort` lifted to `String`. -/
def splitHostPort (s : String) : Except String (String × String) :=
  match splitHostPortL s.data with
  | Except.error e => Except.error e
  | Except.ok (h, p) => Except.ok (String.mk h, String.mk p)

/-- Embedding of Go's `net.JoinHostPort`: `host:port`, bracketing the host
when it contains a colon. -/
def joinHostPort (host port : String) : String :=
  if hasChar ':' host.data then "[" ++ host ++ "]:" ++ port
  else host ++ ":" ++ port

/-- The fields of `net/url.URL` that the package reads: `Scheme`,
`Hostname()` (brackets already stripped), `Port()` (`""` when absent) and
`User` (name and optional password). -/
structure URL where
  scheme : String
  hostname : String
  port : String
  user : Option (String × Option String)
  deriving DecidableEq

/-- Embedding of `addrForDial` (proxy.go): extract a `host:port` address
from a URL, defaulting the port to 80/443 for the http/https schemes and
failing for any other scheme with no explicit port. -/
def addrForDial (u : URL) : Except String String :=
  if u.port = "" then
    if u.scheme = "http" then Except.ok (joinHostPort u.hostname "80")
    else if u.scheme = "https" then Except.ok (joinHostPort u.hostname "443")
    else Except.error ("unsupported URL scheme " ++ goQuote u.scheme)
  else Except.ok (joinHostPort u.hostname u.port)

/-- The fields of `utls.Config` that the package reads or writes:
`ServerName` and `InsecureSkipVerify`. -/
structure UTLSConfig where
  serverName : String
  insecureSkipVerify : Bool
  deriving DecidableEq

/-- A client-hello identity (`utls.ClientHelloID`), identified by its name. -/
abbrev ClientHelloID := String

/-- Embedding of `defaultClientHelloID` (utls.go line 21):
`&utls.HelloChrome_102`.  Declared by the package but referenced nowhere
else in it. -/
def defaultClientHelloID : ClientHelloID := "HelloChrome_102"

/-- The observable state of an established `utls.UConn`: the SNI its
handshake carried, the negotiated application protocol exposed by
`ConnectionState().NegotiatedProtocol`, and the client-hello identity it
was built with. -/
structure UConn where
  sni : String
  negotiatedProtocol : String
  helloID : ClientHelloID
  deriving DecidableEq

/-- Outcome of a `dialUTLS`-style dial: a Go panic (nil-pointer
dereference), an error return, or an established connection. -/
inductive UTLSDialOutcome where
  | panicked : UTLSDialOutcome
  | errored : String → UTLSDialOutcome
  | ok : UConn → UTLSDialOutcome
  deriving DecidableEq

/-- Embedding of `dialUTLS` (proxy.go): dial through the forward dialer
(oracle `forward`), dereference the client-hello pointer (nil → panic),
take the SNI from the config's `ServerName` when non-empty and otherwise
from the host part of the dial address, then perform the handshake
(oracles `handshakeErr` for failure and `negotiated` for the protocol the
peer settles on). -/
def dialUTLS (addr : String) (cfg : Option UTLSConfig) (clientHelloID : Option ClientHelloID)
    (forward : Except String Unit) (handshakeErr : Option String) (negotiated : String) :
    UTLSDialOutcome :=
  match forward with
  | Except.error e => UTLSDialOutcome.errored e
  | Except.ok _ =>
    match clientHelloID with
    | none => UTLSDialOutcome.panicked
    | some hid =>
      let cfgServerName := match cfg with
        | none => ""
        | some c => c.serverName
      let sniResult : Except String String :=
        if cfgServerName = "" then
          match splitHostPort addr with
          | Except.error e => Except.error e
          | Except.ok (hostName, _) => Except.ok hostName
        else Except.ok cfgServerName
      match sniResult with
      | Except.error e => UTLSDialOutcome.errored e
      | Except.ok sni =>
        match handshakeErr with
        | some e => UTLSDialOutcome.errored e
        | none => UTLSDialOutcome.ok { sni := sni, negotiatedProtocol := negotiated, helloID := hid }

/-- The constant `http2.NextProtoTLS` from golang.org/x/net/http2: the
canonical ALPN token for HTTP/2 over TLS. -/
def nextProtoTLS : String := "h2"

/-- The two inner HTTP engines `makeRoundTripper` can build: an
`http2.Transport` or an `http.Transport` clone. -/
inductive EngineKind where
  | http2Transport
  | httpTransport
  deriving DecidableEq

/-- The `switch protocol` at the end of `makeRoundTripper` (utls.go):
the HTTP/2 ALPN token selects the multiplexed transport, anything else
(including the empty protocol) the sequential one. -/
def chooseEngine (protocol : String) : EngineKind :=
  if protocol = nextProtoTLS then EngineKind.http2Transport else EngineKind.httpTransport

/-- What `makeRoundTripper` returns on success: the engine kind together
with the closure state of its `dialTLS` callback — the protocol captured
from the bootstrap handshake and the one-shot `bootstrapConn` slot. -/
structure BoundEngine where
  kind : EngineKind
  protocol : String
  slot : Option UConn
  deriving DecidableEq

/-- Outcome of `makeRoundTripper`: panic propagated from the dial, error
return, or a bound engine. -/
inductive MakeRTOutcome where
  | panicked : MakeRTOutcome
  | errored : String → MakeRTOutcome
  | ok : BoundEngine → MakeRTOutcome
  deriving DecidableEq

/-- Embedding of the `dialTLS` callback installed by `makeRoundTripper`
(utls.go lines 101-123).  `protocol` is the bootstrap's negotiated
protocol, `slot` the current `bootstrapConn` value, and `freshDial` the
outcome a new `dialUTLS` would produce.  Returns the callback's result and
the slot's new value. -/
def dialTLS (protocol : String) (slot : Option UConn) (freshDial : UTLSDialOutcome) :
    UTLSDialOutcome × Option UConn :=
  match slot with
  | some conn => (UTLSDialOutcome.ok conn, none)
  | none =>
    match freshDial with
    | UTLSDialOutcome.panicked => (UTLSDialOutcome.panicked, none)
    | UTLSDialOutcome.errored e => (UTLSDialOutcome.errored e, none)
    | UTLSDialOutcome.ok uconn =>
      if uconn.negotiatedProtocol ≠ protocol then
        (UTLSDialOutcome.errored ("unexpected switch from ALPN " ++ goQuote protocol
            ++ " to " ++ goQuote uconn.negotiatedProtocol), none)
      else (UTLSDialOutcome.ok uconn, none)

/-- Embedding of `makeRoundTripper` (utls.go): resolve the dial address,
perform the bootstrap dial (oracle `bootstrapDial`), peek at the
negotiated protocol and bind the engine chosen by `chooseEngine`, with the
bootstrap connection parked in the callback's one-shot slot. -/
def makeRoundTripper (u : URL) (bootstrapDial : UTLSDialOutcome) : MakeRTOutcome :=
  match addrForDial u with
  | Except.error e => MakeRTOutcome.errored e
  | Except.ok _ =>
    match bootstrapDial with
    | UTLSDialOutcome.panicked => MakeRTOutcome.panicked
    | UTLSDialOutcome.errored e => MakeRTOutcome.errored e
    | UTLSDialOutcome.ok conn =>
      MakeRTOutcome.ok
        { kind := chooseEngine conn.negotiatedProtocol
          protocol := conn.negotiatedProtocol
          slot := some conn }

/-- Embedding of the initialization step of `httpsRoundTrip` (utls.go
lines 55-66): under the lock, build the inner engine if the `rt` field is
still nil, leaving the field untouched when `makeRoundTripper` fails.
Returns the engine (or failure) handed to the rest of the call and the
field's new value. -/
def httpsRoundTripInit (rt : Option BoundEngine) (u : URL) (bootstrapDial : UTLSDialOutcome) :
    MakeRTOutcome × Option BoundEngine :=
  match rt with
  | some b => (MakeRTOutcome.ok b, some b)
  | none =>
    match makeRoundTripper u bootstrapDial with
    | MakeRTOutcome.panicked => (MakeRTOutcome.panicked, none)
    | MakeRTOutcome.errored e => (MakeRTOutcome.errored e, none)
    | MakeRTOutcome.ok b => (MakeRTOutcome.ok b, some b)

/-- The fields of the CONNECT response that `httpProxy.Dial` reads:
`StatusCode` and `Status`. -/
structure Response where
  statusCode : Nat
  status : String
  deriving DecidableEq

/-- Outcome of `httpProxy.Dial`: a panic carrying the leftover buffered
byte count, an error return that records whether the underlying connection
was closed first, or the tunneled connection (identified by the id the
forward dial produced). -/
inductive ConnectDialOutcome where
  | panicked : Nat → ConnectDialOutcome
  | failed : String → Bool → ConnectDialOutcome
  | connected : Nat → ConnectDialOutcome
  deriving DecidableEq

/-- Embedding of `httpProxy.Dial` (proxy.go lines 31-73): dial the proxy
(oracle `forward`, yielding a connection id), write the CONNECT request
(oracle `writeErr`), read the response (oracle `readResult`) leaving
`buffered` bytes in the reader; panic on any leftover buffered byte,
close-and-fail on read errors and on any status other than 200, and
otherwise hand the connection through. -/
def httpProxyDial (forward : Except String Nat) (writeErr : Option String)
    (readResult : Except String Response) (buffered : Nat) : ConnectDialOutcome :=
  match forward with
  | Except.error e => ConnectDialOutcome.failed e false
  | Except.ok conn =>
    match writeErr with
    | some e => ConnectDialOutcome.failed e true
    | none =>
      if buffered ≠ 0 then ConnectDialOutcome.panicked buffered
      else
        match readResult with
        | Except.error e => ConnectDialOutcome.failed e true
        | Except.ok resp =>
          if resp.statusCode ≠ 200 then
            ConnectDialOutcome.failed ("proxy server returned " ++ goQuote resp.status) true
          else ConnectDialOutcome.connected conn

/-- The constant `useragent` (client.go line 10). -/
def useragent : String :=
  "Mozilla/5.0 (X11; Linux x86_64) AppleWebKit/537.36 (KHTML, like Gecko) Chrome/112.0.0.0 Safari/537.36"

/-- An HTTP request as the round tripper sees it: the URL scheme and the
header map (keys already in canonical form, as net/http keeps them). -/
structure Request where
  scheme : String
  headers : List (String × String)
  deriving DecidableEq

/-- Models `http.Header.Get`: first value stored under the key, `""` when
the key is absent. -/
def headerGet (h : List (String × String)) (k : String) : String :=
  match h with
  | [] => ""
  | (k2, v) :: rest => if k2 = k then v else headerGet rest k

/-- Models `http.Header.Set`: replace every value under the key with the
single given value. -/
def headerSet (h : List (String × String)) (k v : String) : List (String × String) :=
  (k, v) :: h.filter (fun p => p.1 ≠ k)

/-- Models `http.Request.UserAgent()`: `Header.Get("User-Agent")`. -/
def requestUserAgent (req : Request) : String := headerGet req.headers "User-Agent"

/-- The request as `UTLSRoundTripper.RoundTrip` forwards it to its inner
engine, assuming initialization succeeds (utls.go lines 43-53 and 68-70):
http requests pass to the plain transport unchanged, https requests gain
the default user agent when `UserAgent()` is empty, and any other scheme
is rejected. -/
def forwardedRequest (req : Request) : Except String Request :=
  if req.scheme = "http" then Except.ok req
  else if req.scheme = "https" then
    Except.ok (if requestUserAgent req = ""
               then { req with headers := headerSet req.headers "User-Agent" useragent }
               else req)
  else Except.error ("unsupported URL scheme: " ++ req.scheme)

/-- A heap of `utls.Config` objects addressed by numeric ids, making
pointer identity (original vs. clone) explicit. -/
abbrev Heap := List (Nat × UTLSConfig)

/-- Look up the config stored at an address. -/
def lookupCfg : Heap → Nat → Option UTLSConfig
  | [], _ => none
  | (m, c) :: rest, n => if m = n then some c else lookupCfg rest n

/-- The addresses allocated in a heap. -/
def heapKeys (h : Heap) : List Nat := h.map Prod.fst

/-- An address not yet allocated in the heap: one past the largest key. -/
def freshAddr (h : Heap) : Nat := (heapKeys h).foldr (fun a b => max a b) 0 + 1

/-- The fields of `proxy.Auth` that the package fills in. -/
structure Auth where
  user : String
  password : String
  deriving DecidableEq

/-- The dialer `makeProxyDialer` returns: `proxy.Direct`, a SOCKS5 dialer,
an `httpProxy` over a direct dial, or an `httpProxy` over a `UTLSDialer`
(which holds a config pointer and a client-hello id). -/
inductive ProxyDialerKind where
  | direct : ProxyDialerKind
  | socks5 : String → Option Auth → ProxyDialerKind
  | httpConnect : String → Option Auth → ProxyDialerKind
  | httpsConnect : String → Option Auth → Option Nat → Option ClientHelloID → ProxyDialerKind
  deriving DecidableEq

/-- The credential extraction in `makeProxyDialer` (proxy.go lines
181-189): username from the URL user-info, password only when present. -/
def authFromURL (u : URL) : Option Auth :=
  match u.user with
  | none => none
  | some (name, pw) => some { user := name, password := pw.getD "" }

/-- Embedding of `makeProxyDialer` (proxy.go lines 151-211), after the
polymorphic proxy argument has been resolved to `none` (no proxy, Go's
default case: the direct dialer) or a parsed URL.  `cfgPtr` is the address
of the caller's `utls.Config` (nil pointer = `none`); for an https proxy
with a non-nil config the config is cloned into a fresh heap cell and the
proxy-facing dialer references the clone. -/
def makeProxyDialer (h : Heap) (proxyURL : Option URL) (cfgPtr : Option Nat)
    (helloID : Option ClientHelloID) :
    Except String (ProxyDialerKind × Option URL) × Heap :=
  match proxyURL with
  | none => (Except.ok (ProxyDialerKind.direct, none), h)
  | some u =>
    match addrForDial u with
    | Except.error e => (Except.error e, h)
    | Except.ok proxyAddr =>
      let auth := authFromURL u
      if u.scheme = "socks5" then
        (Except.ok (ProxyDialerKind.socks5 proxyAddr auth, some u), h)
      else if u.scheme = "http" then
        (Except.ok (ProxyDialerKind.httpConnect proxyAddr auth, some u), h)
      else if u.scheme = "https" then
        match cfgPtr with
        | none =>
          (Except.ok (ProxyDialerKind.httpsConnect proxyAddr auth none helloID, some u), h)
        | some p =>
          match lookupCfg h p with
          | none =>
            (Except.ok (ProxyDialerKind.httpsConnect proxyAddr auth none helloID, some u), h)
          | some c =>
            (Except.ok (ProxyDialerKind.httpsConnect proxyAddr auth (some (freshAddr h)) helloID,
                some u), (freshAddr h, c) :: h)
      else (Except.error ("cannot use proxy scheme " ++ goQuote u.scheme ++ " with uTLS"), h)

/-- The `UTLS` options struct (options.go): proxy specification (resolved
to a URL or absent), client-hello pointer, config pointer — pointers
modelled as `Option`. -/
structure UTLS where
  proxy : Option URL
  clientHello : Option ClientHelloID
  config : Option UTLSConfig
  deriving DecidableEq

/-- Embedding of `UTLSOptions` (options.go): apply each option in order to
a zero-valued `UTLS`. -/
def UTLSOptions (options : List (UTLS → UTLS)) : UTLS :=
  options.foldl (fun u o => o u) { proxy := none, clientHello := none, config := none }

/-- Embedding of the `Proxy` option (options.go). -/
def Proxy (p : Option URL) : UTLS → UTLS := fun o => { o with proxy := p }

/-- Embedding of the `ClientHello` option (options.go). -/
def ClientHello (ch : Option ClientHelloID) : UTLS → UTLS := fun o => { o with clientHello := ch }

/-- Embedding of the `Config` option (options.go). -/
def Config (c : Option UTLSConfig) : UTLS → UTLS := fun o => { o with config := c }

/-- The fields of `UTLSRoundTripper` set by its constructor, plus the
lazily bound engine field `rt` (nil at construction). -/
structure UTLSRoundTripperS where
  clientHelloID : Option ClientHelloID
  config : Option UTLSConfig
  proxyDialer : ProxyDialerKind
  rt : Option BoundEngine
  deriving DecidableEq

/-- Embedding of `NewUTLSRoundTripper` (utls.go lines 155-182): assemble
the options, build the proxy dialer, and return a round tripper holding
exactly the configured client hello and config — no default client hello
is substituted anywhere.  The config value, when present, is allocated at
heap address 0 for the `makeProxyDialer` call. -/
def NewUTLSRoundTripper (opts : List (UTLS → UTLS)) : Except String UTLSRoundTripperS :=
  let u := UTLSOptions opts
  let h : Heap := match u.config with
    | some c => [(0, c)]
    | none => []
  match (makeProxyDialer h u.proxy (u.config.map fun _ => 0) u.clientHello).1 with
  | Except.error e => Except.error ("make proxy dialer failed: " ++ e)
  | Except.ok (d, _) =>
    Except.ok { clientHelloID := u.clientHello, config := u.config, proxyDialer := d, rt := none }

/-- A sample target URL used by concrete witnesses. -/
def exURL : URL := { scheme := "https", hostname := "example.com", port := "", user := none }

/-- A sample bootstrap connection that negotiated HTTP/2. -/
def exConnH2 : UConn :=
  { sni := "example.com", negotiatedProtocol := "h2", helloID := "HelloChrome_102" }

/-- A sample bootstrap connection that negotiated no protocol. -/
def exConnNone : UConn :=
  { sni := "example.com", negotiatedProtocol := "", helloID := "HelloChrome_102" }

/-- The engine binding produced from `exConnH2`. -/
def exEngineH2 : BoundEngine :=
  { kind := EngineKind.http2Transport, protocol := "h2", slot := some exConnH2 }

/-- The engine binding produced from `exConnNone`. -/
def exEngineSeq : BoundEngine :=
  { kind := EngineKind.httpTransport, protocol := "", slot := some exConnNone }

/-- An already-bound sequential engine with an emptied slot. -/
def exEngineIdle : BoundEngine :=
  { kind := EngineKind.httpTransport, protocol := "", slot := none }

/-- A sample original config for the clone witness. -/
def exCfgOrig : UTLSConfig := { serverName := "orig.example", insecureSkipVerify := false }

/-- A sample heap holding `exCfgOrig` at address 1. -/
def exHeap : Heap := [(1, exCfgOrig)]

/-- A sample https proxy URL. -/
def exProxyURL : URL :=
  { scheme := "https", hostname := "proxy.example", port := "8443", user := none }

theorem hasChar_eq_false {c : Char} {l : List Char} (h : c ∉ l) : hasChar c l = false := by
  induction l with
  | nil => rfl
  | cons x xs ih =>
    have hx : x ≠ c := fun he => h (he ▸ List.mem_cons_self x xs)
    have ih' := ih (fun hm => h (List.mem_cons_of_mem x hm))
    simp [hasChar, if_neg hx, ih']

theorem splitAtLastColon_eq_none {l : List Char} (h : (':' : Char) ∉ l) :
    splitAtLastColon l = none := by
  induction l with
  | nil => rfl
  | cons c rest ih =>
    have hc : c ≠ ':' := fun he => h (he ▸ List.mem_cons_self c rest)
    have ih' := ih (fun hm => h (List.mem_cons_of_mem c hm))
    simp [splitAtLastColon, ih', if_neg hc]

theorem splitAtLastColon_append (host port : List Char) (hp : (':' : Char) ∉ port) :
    splitAtLastColon (host ++ ':' :: port) = some (host, port) := by
  induction host with
  | nil => simp [splitAtLastColon, splitAtLastColon_eq_none hp]
  | cons c t ih => simp [splitAtLastColon, ih]

theorem startsWithLBracket_append (host port : List Char) (h2 : ('[' : Char) ∉ host) :
    startsWithLBracket (host ++ ':' :: port) = false := by
  cases host with
  | nil => rfl
  | cons c t =>
    have hc : c ≠ '[' := fun he => h2 (he ▸ List.mem_cons_self c t)
    simp [startsWithLBracket, if_neg hc]

theorem splitHostPortL_join (host port : List Char)
    (h1 : (':' : Char) ∉ host) (h2 : ('[' : Char) ∉ host) (h3 : (']' : Char) ∉ host)
    (h4 : (':' : Char) ∉ port) (h5 : ('[' : Char) ∉ port) (h6 : (']' : Char) ∉ port) :
    splitHostPortL (host ++ ':' :: port) = Except.ok (host, port) := by
  have hb : ('[' : Char) ∉ host ++ ':' :: port := by
    intro hm
    rcases List.mem_append.mp hm with hm | hm
    · exact h2 hm
    · rcases List.mem_cons.mp hm with he | hm
      · exact absurd he (by decide)
      · exact h5 hm
  have hrb : (']' : Char) ∉ host ++ ':' :: port := by
    intro hm
    rcases List.mem_append.mp hm with hm | hm
    · exact h3 hm
    · rcases List.mem_cons.mp hm with he | hm
      · exact absurd he (by decide)
      · exact h6 hm
  unfold splitHostPortL
  rw [splitAtLastColon_append host port h4]
  rw [startsWithLBracket_append host port h2]
  simp [hasChar_eq_false h1, hasChar_eq_false hb, hasChar_eq_false hrb]

theorem string_data_append (a b : String) : (a ++ b).data = a.data ++ b.data := rfl

theorem splitHostPort_join (host port : String)
    (h1 : (':' : Char) ∉ host.data) (h2 : ('[' : Char) ∉ host.data) (h3 : (']' : Char) ∉ host.data)
    (h4 : (':' : Char) ∉ port.data) (h5 : ('[' : Char) ∉ port.data) (h6 : (']' : Char) ∉ port.data) :
    splitHostPort (joinHostPort host port) = Except.ok (host, port) := by
  have hdata : (host ++ ":" ++ port).data = host.data ++ ':' :: port.data := by
    rw [string_data_append, string_data_append, List.append_assoc]
    rfl
  have hjoin : joinHostPort host port = host ++ ":" ++ port := by
    unfold joinHostPort
    rw [hasChar_eq_false h1]
    simp
  rw [hjoin]
  unfold splitHostPort
  rw [hdata, splitHostPortL_join host.data port.data h1 h2 h3 h4 h5 h6]

/-- C7: for every URL given to addrForDial, an explicit port yields
host:port for any scheme; with no port, scheme http yields host:80 and
https host:443, and any other scheme (e.g. socks5) fails with an
unsupported-scheme error. -/
theorem C7_addrForDial (u v x w : URL)
    (hu : u.port ≠ "") (hv : v.port = "") (hvs : v.scheme = "http")
    (hx : x.port = "") (hxs : x.scheme = "https")
    (hw : w.port = "") (hw2 : w.scheme ≠ "http") (hw3 : w.scheme ≠ "https") :
    addrForDial u = Except.ok (joinHostPort u.hostname u.port) ∧
    addrForDial v = Except.ok (joinHostPort v.hostname "80") ∧
    addrForDial x = Except.ok (joinHostPort x.hostname "443") ∧
    addrForDial w = Except.error ("unsupported URL scheme " ++ goQuote w.scheme) := by
  refine ⟨?_, ?_, ?_, ?_⟩ <;>
    simp [addrForDial, hu, hv, hvs, hx, hxs, hw, hw2, hw3]

theorem C7_addrForDial_witness :
    addrForDial { scheme := "socks5", hostname := "p.example", port := "1080", user := none }
        = Except.ok (joinHostPort "p.example" "1080") ∧
    addrForDial { scheme := "http", hostname := "h.example", port := "", user := none }
        = Except.ok (joinHostPort "h.example" "80") ∧
    addrForDial { scheme := "https", hostname := "h.example", port := "", user := none }
        = Except.ok (joinHostPort "h.example" "443") ∧
    addrForDial { scheme := "socks5", hostname := "h.example", port := "", user := none }
        = Except.error ("unsupported URL scheme " ++ goQuote "socks5") :=
  C7_addrForDial
    { scheme := "socks5", hostname := "p.example", port := "1080", user := none }
    { scheme := "http", hostname := "h.example", port := "", user := none }
    { scheme := "https", hostname := "h.example", port := "", user := none }
    { scheme := "socks5", hostname := "h.example", port := "", user := none }
    (by decide) rfl rfl rfl rfl rfl (by decide) (by decide)

/-- C5: for every dialUTLS call, a config with a non-empty server name
fixes the outgoing SNI to that override for any dial address, while a nil
config or an empty server name derives the SNI from the host part of the
dial address. -/
theorem C5_dialUTLS_sni (host port addr : String) (c c0 : UTLSConfig)
    (hid : ClientHelloID) (neg : String)
    (hsn : c.serverName ≠ "") (h0 : c0.serverName = "")
    (h1 : (':' : Char) ∉ host.data) (h2 : ('[' : Char) ∉ host.data) (h3 : (']' : Char) ∉ host.data)
    (h4 : (':' : Char) ∉ port.data) (h5 : ('[' : Char) ∉ port.data) (h6 : (']' : Char) ∉ port.data) :
    dialUTLS addr (some c) (some hid) (Except.ok ()) none neg
        = UTLSDialOutcome.ok { sni := c.serverName, negotiatedProtocol := neg, helloID := hid } ∧
    dialUTLS (joinHostPort host port) none (some hid) (Except.ok ()) none neg
        = UTLSDialOutcome.ok { sni := host, negotiatedProtocol := neg, helloID := hid } ∧
    dialUTLS (joinHostPort host port) (some c0) (some hid) (Except.ok ()) none neg
        = UTLSDialOutcome.ok { sni := host, negotiatedProtocol := neg, helloID := hid } := by
  have hsplit := splitHostPort_join host port h1 h2 h3 h4 h5 h6
  refine ⟨?_, ?_, ?_⟩ <;> simp [dialUTLS, hsn, h0, hsplit]

theorem C5_dialUTLS_sni_witness :
    dialUTLS "198.51.100.7:443" (some { serverName := "test.example", insecureSkipVerify := true })
        (some "HelloFirefox_63") (Except.ok ()) none "h2"
        = UTLSDialOutcome.ok
            { sni := "test.example", negotiatedProtocol := "h2", helloID := "HelloFirefox_63" } ∧
    dialUTLS (joinHostPort "localhost" "443") none
        (some "HelloFirefox_63") (Except.ok ()) none "h2"
        = UTLSDialOutcome.ok
            { sni := "localhost", negotiatedProtocol := "h2", helloID := "HelloFirefox_63" } ∧
    dialUTLS (joinHostPort "localhost" "443")
        (some { serverName := "", insecureSkipVerify := true })
        (some "HelloFirefox_63") (Except.ok ()) none "h2"
        = UTLSDialOutcome.ok
            { sni := "localhost", negotiatedProtocol := "h2", helloID := "HelloFirefox_63" } :=
  C5_dialUTLS_sni "localhost" "443" "198.51.100.7:443"
    { serverName := "test.example", insecureSkipVerify := true }
    { serverName := "", insecureSkipVerify := true }
    "HelloFirefox_63" "h2"
    (by decide) rfl (by decide) (by decide) (by decide) (by decide) (by decide) (by decide)

/-- C3: for every httpProxy.Dial call whose forward dial succeeds and whose
CONNECT response is read (no leftover buffered byte, hence no panic), a
status other than 200 yields an error containing the response status with
the connection closed first, and status exactly 200 yields the connection
and no error. -/
theorem C3_connectResponse (conn : Nat) (resp respOk : Response)
    (hne : resp.statusCode ≠ 200) (hok : respOk.statusCode = 200) :
    httpProxyDial (Except.ok conn) none (Except.ok resp) 0
        = ConnectDialOutcome.failed ("proxy server returned " ++ goQuote resp.status) true ∧
    resp.status.data <:+: ("proxy server returned " ++ goQuote resp.status).data ∧
    httpProxyDial (Except.ok conn) none (Except.ok respOk) 0
        = ConnectDialOutcome.connected conn := by
  refine ⟨?_, ?_, ?_⟩
  · simp [httpProxyDial, hne]
  · exact ⟨("proxy server returned " ++ "\"").data, ("\"" : String).data,
      by simp [goQuote, string_data_append, List.append_assoc]⟩
  · simp [httpProxyDial, hok]

theorem C3_connectResponse_witness :
    httpProxyDial (Except.ok 7) none (Except.ok { statusCode := 403, status := "403 Forbidden" }) 0
        = ConnectDialOutcome.failed ("proxy server returned " ++ goQuote "403 Forbidden") true ∧
    ("403 Forbidden" : String).data <:+: ("proxy server returned " ++ goQuote "403 Forbidden").data ∧
    httpProxyDial (Except.ok 7) none (Except.ok { statusCode := 200, status := "200 OK" }) 0
        = ConnectDialOutcome.connected 7 :=
  C3_connectResponse 7 { statusCode := 403, status := "403 Forbidden" }
    { statusCode := 200, status := "200 OK" } (by decide) rfl

/-- C4: any leftover buffered byte after the CONNECT response makes
httpProxy.Dial panic instead of returning, and every call that does return
the connection had zero buffered bytes — a partially consumed tunnel is
never handed to the caller. -/
theorem C4_bufferedGuard (conn n : Nat) (r : Except String Response) (hn : n ≠ 0)
    (f : Except String Nat) (w : Option String) (rr : Except String Response) (b c2 : Nat)
    (hres : httpProxyDial f w rr b = ConnectDialOutcome.connected c2) :
    httpProxyDial (Except.ok conn) none r n = ConnectDialOutcome.panicked n ∧ b = 0 := by
  constructor
  · simp [httpProxyDial, hn]
  · by_cases hb : b = 0
    · exact hb
    · exfalso
      cases f with
      | error e => simp [httpProxyDial] at hres
      | ok c =>
        cases w with
        | some e => simp [httpProxyDial] at hres
        | none => simp [httpProxyDial, hb] at hres

theorem C4_bufferedGuard_witness :
    httpProxyDial (Except.ok 5) none (Except.ok { statusCode := 200, status := "200 OK" }) 3
        = ConnectDialOutcome.panicked 3 ∧ (0 : Nat) = 0 :=
  C4_bufferedGuard 5 3 (Except.ok { statusCode := 200, status := "200 OK" }) (by decide)
    (Except.ok 5) none (Except.ok { statusCode := 200, status := "200 OK" }) 0 5 rfl

/-- C1: the dialTLS callback returns the bootstrap connection on its very
first invocation and clears the one-shot slot; with the slot empty, a
fresh dial whose negotiated protocol differs from the bootstrap protocol
yields a hard error naming both protocol strings instead of a connection,
while a matching fresh dial is passed through. -/
theorem C1_dialTLS_handoff (protocol : String) (conn uconn u2 : UConn) (d : UTLSDialOutcome)
    (hne : uconn.negotiatedProtocol ≠ protocol) (heq : u2.negotiatedProtocol = protocol) :
    dialTLS protocol (some conn) d = (UTLSDialOutcome.ok conn, none) ∧
    dialTLS protocol none (UTLSDialOutcome.ok uconn)
        = (UTLSDialOutcome.errored ("unexpected switch from ALPN " ++ goQuote protocol
            ++ " to " ++ goQuote uconn.negotiatedProtocol), none) ∧
    protocol.data <:+: ("unexpected switch from ALPN " ++ goQuote protocol
            ++ " to " ++ goQuote uconn.negotiatedProtocol).data ∧
    uconn.negotiatedProtocol.data <:+: ("unexpected switch from ALPN " ++ goQuote protocol
            ++ " to " ++ goQuote uconn.negotiatedProtocol).data ∧
    dialTLS protocol none (UTLSDialOutcome.ok u2) = (UTLSDialOutcome.ok u2, none) := by
  refine ⟨rfl, ?_, ?_, ?_, ?_⟩
  · simp [dialTLS, hne]
  · exact ⟨("unexpected switch from ALPN " ++ "\"").data,
      ("\"" ++ " to " ++ goQuote uconn.negotiatedProtocol).data,
      by simp [goQuote, string_data_append, List.append_assoc]⟩
  · exact ⟨("unexpected switch from ALPN " ++ goQuote protocol ++ " to " ++ "\"").data,
      ("\"" : String).data,
      by simp [goQuote, string_data_append, List.append_assoc]⟩
  · simp [dialTLS, heq]

theorem C1_dialTLS_handoff_witness :
    dialTLS "h2" (some { sni := "s.example", negotiatedProtocol := "h2", helloID := "HelloChrome_102" })
        (UTLSDialOutcome.errored "ignored")
        = (UTLSDialOutcome.ok
            { sni := "s.example", negotiatedProtocol := "h2", helloID := "HelloChrome_102" }, none) ∧
    dialTLS "h2" none (UTLSDialOutcome.ok
        { sni := "s.example", negotiatedProtocol := "http/1.1", helloID := "HelloChrome_102" })
        = (UTLSDialOutcome.errored ("unexpected switch from ALPN " ++ goQuote "h2"
            ++ " to " ++ goQuote "http/1.1"), none) ∧
    ("h2" : String).data <:+: ("unexpected switch from ALPN " ++ goQuote "h2"
            ++ " to " ++ goQuote "http/1.1").data ∧
    ("http/1.1" : String).data <:+: ("unexpected switch from ALPN " ++ goQuote "h2"
            ++ " to " ++ goQuote "http/1.1").data ∧
    dialTLS "h2" none (UTLSDialOutcome.ok
        { sni := "t.example", negotiatedProtocol := "h2", helloID := "HelloChrome_102" })
        = (UTLSDialOutcome.ok
            { sni := "t.example", negotiatedProtocol := "h2", helloID := "HelloChrome_102" }, none) :=
  C1_dialTLS_handoff "h2"
    { sni := "s.example", negotiatedProtocol := "h2", helloID := "HelloChrome_102" }
    { sni := "s.example", negotiatedProtocol := "http/1.1", helloID := "HelloChrome_102" }
    { sni := "t.example", negotiatedProtocol := "h2", helloID := "HelloChrome_102" }
    (UTLSDialOutcome.errored "ignored") (by decide) rfl

/-- C2: makeRoundTripper binds the multiplexed (http2) engine exactly when
the bootstrap negotiated the canonical HTTP/2 ALPN token and the
sequential engine for any other protocol (including none), httpsRoundTrip
caches that binding on first use, and once the rt field is set every later
call returns the same engine with the field unchanged. -/
theorem C2_terminalBinding (u : URL) (a : String) (conn conn2 : UConn)
    (b : BoundEngine) (d : UTLSDialOutcome)
    (ha : addrForDial u = Except.ok a)
    (hh : conn.negotiatedProtocol = nextProtoTLS)
    (hn : conn2.negotiatedProtocol ≠ nextProtoTLS) :
    makeRoundTripper u (UTLSDialOutcome.ok conn)
        = MakeRTOutcome.ok
            { kind := EngineKind.http2Transport, protocol := conn.negotiatedProtocol,
              slot := some conn } ∧
    makeRoundTripper u (UTLSDialOutcome.ok conn2)
        = MakeRTOutcome.ok
            { kind := EngineKind.httpTransport, protocol := conn2.negotiatedProtocol,
              slot := some conn2 } ∧
    httpsRoundTripInit none u (UTLSDialOutcome.ok conn)
        = (MakeRTOutcome.ok
            { kind := EngineKind.http2Transport, protocol := conn.negotiatedProtocol,
              slot := some conn },
           some
             { kind := EngineKind.http2Transport, protocol := conn.negotiatedProtocol,
               slot := some conn }) ∧
    httpsRoundTripInit (some b) u d = (MakeRTOutcome.ok b, some b) := by
  refine ⟨?_, ?_, ?_, rfl⟩ <;>
    simp [makeRoundTripper, httpsRoundTripInit, chooseEngine, ha, hh, hn]

theorem C2_terminalBinding_witness :
    makeRoundTripper exURL (UTLSDialOutcome.ok exConnH2) = MakeRTOutcome.ok exEngineH2 ∧
    makeRoundTripper exURL (UTLSDialOutcome.ok exConnNone) = MakeRTOutcome.ok exEngineSeq ∧
    httpsRoundTripInit none exURL (UTLSDialOutcome.ok exConnH2)
        = (MakeRTOutcome.ok exEngineH2, some exEngineH2) ∧
    httpsRoundTripInit (some exEngineIdle) exURL (UTLSDialOutcome.errored "later dial")
        = (MakeRTOutcome.ok exEngineIdle, some exEngineIdle) :=
  C2_terminalBinding exURL (joinHostPort "example.com" "443") exConnH2 exConnNone
    exEngineIdle (UTLSDialOutcome.errored "later dial") rfl rfl (by decide)

/-- C10: when the first bootstrap initialization fails, the rt field stays
unset and the error is returned to that caller; a later call on the same
instance runs the bootstrap again and can succeed — the failure is not
cached terminally. -/
theorem C10_retryAfterFailure (u : URL) (e : String) (d1 d2 : UTLSDialOutcome) (b : BoundEngine)
    (h1 : makeRoundTripper u d1 = MakeRTOutcome.errored e)
    (h2 : makeRoundTripper u d2 = MakeRTOutcome.ok b) :
    httpsRoundTripInit none u d1 = (MakeRTOutcome.errored e, none) ∧
    httpsRoundTripInit none u d2 = (MakeRTOutcome.ok b, some b) := by
  constructor <;> simp [httpsRoundTripInit, h1, h2]

theorem C10_retryAfterFailure_witness :
    httpsRoundTripInit none exURL (UTLSDialOutcome.errored "connection refused")
        = (MakeRTOutcome.errored "connection refused", none) ∧
    httpsRoundTripInit none exURL (UTLSDialOutcome.ok exConnH2)
        = (MakeRTOutcome.ok exEngineH2, some exEngineH2) :=
  C10_retryAfterFailure exURL "connection refused"
    (UTLSDialOutcome.errored "connection refused") (UTLSDialOutcome.ok exConnH2)
    exEngineH2 rfl rfl

/-- C6: the claim says a round tripper constructed with no client-hello
identity uses the fixed default profile; the code instead stores the nil
client-hello pointer unchanged (defaultClientHelloID is never installed),
so the very first HTTPS bootstrap dial dereferences the nil pointer and
panics instead of performing a default-profile handshake. -/
theorem C6_defaultHelloNeverInstalled :
    NewUTLSRoundTripper []
        = Except.ok { clientHelloID := none, config := none,
                      proxyDialer := ProxyDialerKind.direct, rt := none } ∧
    (UTLSOptions []).clientHello ≠ some defaultClientHelloID ∧
    dialUTLS "example.com:443" none (UTLSOptions []).clientHello (Except.ok ()) none ""
        = UTLSDialOutcome.panicked ∧
    makeRoundTripper exURL
        (dialUTLS "example.com:443" none (UTLSOptions []).clientHello (Except.ok ()) none "")
        = MakeRTOutcome.panicked :=
  ⟨rfl, by decide, rfl, rfl⟩

theorem mem_le_foldrMax (p : Nat) (l : List Nat) (h : p ∈ l) :
    p ≤ l.foldr (fun a b => max a b) 0 := by
  induction l with
  | nil => cases h
  | cons a t ih =>
    rcases List.mem_cons.mp h with rfl | h2
    · exact Nat.le_max_left _ _
    · exact Nat.le_trans (ih h2) (Nat.le_max_right _ _)

theorem lookupCfg_mem {h : Heap} {p : Nat} {c : UTLSConfig}
    (hl : lookupCfg h p = some c) : p ∈ heapKeys h := by
  induction h with
  | nil => simp [lookupCfg] at hl
  | cons mc rest ih =>
    obtain ⟨m, cc⟩ := mc
    by_cases hm : m = p
    · subst hm
      exact List.mem_cons_self _ _
    · have hrest : lookupCfg rest p = some c := by
        simpa [lookupCfg, hm] using hl
      exact List.mem_cons_of_mem _ (ih hrest)

theorem lookupCfg_lt_freshAddr {h : Heap} {p : Nat} {c : UTLSConfig}
    (hl : lookupCfg h p = some c) : p < freshAddr h :=
  Nat.lt_succ_of_le (mem_le_foldrMax p (heapKeys h) (lookupCfg_mem hl))

/-- C8: for an https proxy URL and a non-nil config, makeProxyDialer
clones the config into a fresh cell: the proxy-facing dialer references
the clone, the clone's address differs from the original's (the object the
tunnel-facing handshake keeps using), the clone holds an equal value, and
apart from the new cell the heap — in particular the caller's original
config — is unchanged. -/
theorem C8_cloneConfig (h : Heap) (u : URL) (p : Nat) (c : UTLSConfig)
    (hid : Option ClientHelloID) (a : String) (n : Nat)
    (hu : u.scheme = "https") (hp : lookupCfg h p = some c)
    (ha : addrForDial u = Except.ok a) (hn : n ≠ freshAddr h) :
    makeProxyDialer h (some u) (some p) hid
        = (Except.ok (ProxyDialerKind.httpsConnect a (authFromURL u) (some (freshAddr h)) hid,
            some u), (freshAddr h, c) :: h) ∧
    freshAddr h ≠ p ∧
    lookupCfg ((freshAddr h, c) :: h) (freshAddr h) = some c ∧
    lookupCfg ((freshAddr h, c) :: h) p = some c ∧
    lookupCfg ((freshAddr h, c) :: h) n = lookupCfg h n := by
  have hlt := lookupCfg_lt_freshAddr hp
  have hfp : freshAddr h ≠ p := fun he => Nat.lt_irrefl p (he ▸ hlt)
  refine ⟨?_, hfp, ?_, ?_, ?_⟩
  · simp [makeProxyDialer, hu, ha, hp]
  · simp [lookupCfg]
  · simp [lookupCfg, hfp, hp]
  · simp [lookupCfg, Ne.symm hn]

theorem C8_cloneConfig_witness :
    makeProxyDialer exHeap (some exProxyURL) (some 1) (some "HelloChrome_102")
        = (Except.ok (ProxyDialerKind.httpsConnect (joinHostPort "proxy.example" "8443")
            (authFromURL exProxyURL) (some (freshAddr exHeap)) (some "HelloChrome_102"),
            some exProxyURL), (freshAddr exHeap, exCfgOrig) :: exHeap) ∧
    freshAddr exHeap ≠ 1 ∧
    lookupCfg ((freshAddr exHeap, exCfgOrig) :: exHeap) (freshAddr exHeap) = some exCfgOrig ∧
    lookupCfg ((freshAddr exHeap, exCfgOrig) :: exHeap) 1 = some exCfgOrig ∧
    lookupCfg ((freshAddr exHeap, exCfgOrig) :: exHeap) 1 = lookupCfg exHeap 1 :=
  C8_cloneConfig exHeap exProxyURL 1 exCfgOrig (some "HelloChrome_102")
    (joinHostPort "proxy.example" "8443") 1 rfl rfl rfl (by decide)

/-- C9 counterexample: an http-scheme request carrying no user-agent
header is forwarded by the round tripper unchanged — the user-agent
injection lives only on the https path, so the configured default (a
non-empty string) is never set on it, contradicting the claim's "for every
request executed through the round tripper". -/
theorem C9_counterexample :
    requestUserAgent { scheme := "http", headers := [] } = "" ∧
    forwardedRequest { scheme := "http", headers := [] }
        = Except.ok { scheme := "http", headers := [] } ∧
    useragent ≠ "" :=
  ⟨rfl, rfl, by decide⟩

/-- C9 amended: for every https request executed through the round
tripper, an empty user-agent (header absent or empty-valued, as reported
by the request's UserAgent accessor) is replaced by the configured default
before forwarding, a non-empty one is left untouched, and http-scheme
requests are forwarded without user-agent injection. -/
theorem C9_userAgentDefault (req req2 reqHttp : Request)
    (hs : req.scheme = "https") (hua : requestUserAgent req = "")
    (hs2 : req2.scheme = "https") (hua2 : requestUserAgent req2 ≠ "")
    (hh : reqHttp.scheme = "http") :
    forwardedRequest req
        = Except.ok { scheme := "https",
                      headers := headerSet req.headers "User-Agent" useragent } ∧
    requestUserAgent { scheme := "https",
                       headers := headerSet req.headers "User-Agent" useragent } = useragent ∧
    forwardedRequest req2 = Except.ok req2 ∧
    forwardedRequest reqHttp = Except.ok reqHttp := by
  obtain ⟨s, hd⟩ := req
  simp only at hs
  subst hs
  refine ⟨?_, ?_, ?_, ?_⟩
  · simp [forwardedRequest, hua]
  · simp [requestUserAgent, headerGet, headerSet]
  · simp [forwardedRequest, hs2, hua2]
  · simp [forwardedRequest, hh]

theorem C9_userAgentDefault_witness :
    forwardedRequest { scheme := "https", headers := [("Accept", "text/html")] }
        = Except.ok { scheme := "https",
                      headers := headerSet [("Accept", "text/html")] "User-Agent" useragent } ∧
    requestUserAgent { scheme := "https",
                       headers := headerSet [("Accept", "text/html")] "User-Agent" useragent }
        = useragent ∧
    forwardedRequest { scheme := "https", headers := [("User-Agent", "curl/8.0")] }
        = Except.ok { scheme := "https", headers := [("User-Agent", "curl/8.0")] } ∧
    forwardedRequest { scheme := "http", headers := [] }
        = Except.ok { scheme := "http", headers := [] } :=
  C9_userAgentDefault
    { scheme := "https", headers := [("Accept", "text/html")] }
    { scheme := "https", headers := [("User-Agent", "curl/8.0")] }
    { scheme := "http", headers := [] }
    rfl rfl rfl (by decide) rfl
